import Mathlib

/-!
Verification of the IGMPv2 host-side module of a userspace TCP/IP network
stack (RFC 2236, with backwards compatibility for IGMPv1 routers).

The definitions below are a shallow embedding of the per-interface IGMP
state and its operations from pkg/tcpip/network/ipv4/igmp.go, together
with the IPv4 options serializer exercised by
pkg/tcpip/header/ipv4_test.go.  Addresses are 32-bit values, durations
are nanosecond counts (as Go time.Duration), byte buffers are lists of
naturals below 256.  Parts of the header package and of the generic
multicast engine that are referenced but whose sources are not in this
tree are modelled from the specification and marked as such.
-/

/-- An IPv4 address, as its 32-bit big-endian numeric value.  The source
stores addresses as 4-byte strings; we use the corresponding number. -/
abbrev Address := Nat

/-- One second as a Go time.Duration (a count of nanoseconds). -/
def second : Nat := 1000000000

/-- v1RouterPresentTimeout from RFC 2236 Section 8.11, Page 18:
400 seconds. -/
def v1RouterPresentTimeout : Nat := 400 * second

/-- v1MaxRespTime from RFC 2236 Section 4, Page 5: a query carrying a max
response time of 0 must be interpreted as 100 deciseconds, 10 seconds. -/
def v1MaxRespTime : Nat := 10 * second

/-- UnsolicitedReportIntervalMax, the maximum delay between unsolicited
IGMP reports (RFC 2236 Section 8.10): 10 seconds. -/
def UnsolicitedReportIntervalMax : Nat := 10 * second

/-- Modelled from the spec: the header package (not in this tree) defines
the IGMP message type code MembershipQuery = 0x11. -/
def IGMPMembershipQuery : Nat := 0x11

/-- Modelled from the spec: header package type code
V1MembershipReport = 0x12. -/
def IGMPv1MembershipReport : Nat := 0x12

/-- Modelled from the spec: header package type code
V2MembershipReport = 0x16. -/
def IGMPv2MembershipReport : Nat := 0x16

/-- Modelled from the spec: header package type code LeaveGroup = 0x17. -/
def IGMPLeaveGroup : Nat := 0x17

/-- Modelled from the spec: the header package constant AllSystems,
224.0.0.1. -/
def IPv4AllSystems : Address := 224 * 2 ^ 24 + 1

/-- Modelled from the spec: the header package constant AllRouters,
224.0.2.0, used as the leave destination per RFC 2236. -/
def IPv4AllRoutersGroup : Address := 224 * 2 ^ 24 + 2 * 2 ^ 8

/-- Modelled from the spec: the header package's minimum IGMP message
size; the IGMP message layout is 8 bytes. -/
def IGMPMinimumSize : Nat := 8

/-- Modelled from the spec: minimum size of a membership query, 8 bytes. -/
def IGMPQueryMinimumSize : Nat := 8

/-- Modelled from the spec: minimum size of a membership report, 8 bytes. -/
def IGMPReportMinimumSize : Nat := 8

/-- Modelled from the spec: the max-response-time field is in units of
deciseconds; the header package converts it to a duration
(field * time.Second / 10 nanoseconds). -/
def decisecondToDuration (ds : Nat) : Nat := ds * (second / 10)

/-- The IGMP.PacketsSent statistic counters touched by this module. -/
structure IGMPSentStats where
  v1MembershipReport : Nat
  v2MembershipReport : Nat
  leaveGroup : Nat
  dropped : Nat
deriving DecidableEq

/-- The IGMP.PacketsReceived statistic counters touched by this module. -/
structure IGMPReceivedStats where
  invalid : Nat
  checksumErrors : Nat
  membershipQuery : Nat
  v1MembershipReport : Nat
  v2MembershipReport : Nat
  leaveGroup : Nat
  unrecognized : Nat
deriving DecidableEq

/-- An IGMP packet assembled by writePacket: the destination address the
IP header is built for, and the group address and type written into the
8-byte IGMP body (the body's checksum is computed from these two). -/
structure SentPacket where
  destAddress : Address
  groupAddress : Address
  igmpType : Nat
deriving DecidableEq

/-- The tcpip errors this module surfaces. `nicWriteError` stands for
whatever error WritePacketToRemote propagates verbatim. -/
inductive TcpipError where
  | badLocalAddress
  | nicWriteError
deriving DecidableEq

/-- Result of a transmit operation: `ret err sent pkt transmitted`
models a normal return carrying the error value, the updated sent
counters, the packet that was assembled (none when nothing was built)
and whether the NIC accepted it; `panicked` models the process aborting
in writePacket's counter switch after the packet went out. -/
inductive SendResult where
  | ret (err : Option TcpipError) (sent : IGMPSentStats) (pkt : Option SentPacket)
      (transmitted : Bool) : SendResult
  | panicked (pkt : SentPacket) : SendResult
deriving DecidableEq

/-- The packet a SendResult assembled, when any. -/
def SendResult.builtPacket : SendResult → Option SentPacket
  | .ret _ _ pkt _ => pkt
  | .panicked pkt => some pkt

/-- Whether the SendResult is the aborting case. -/
def SendResult.isPanicked : SendResult → Bool
  | .ret _ _ _ _ => false
  | .panicked _ => true

/-- Per-interface IGMP state (igmpState in the source): the enable
option, the igmpV1Present flag (an atomic uint32 holding 0 or 1, here a
Bool), the igmpV1Job (none when not scheduled, `some d` when scheduled
with delay d), and the stat counters this module updates. -/
structure IGMPState where
  enabled : Bool
  igmpV1Present : Bool
  igmpV1Job : Option Nat
  sent : IGMPSentStats
  received : IGMPReceivedStats
deriving DecidableEq

/-- v1Present reads the igmpV1Present atomic. -/
def IGMPState.v1Present (igmp : IGMPState) : Bool := igmp.igmpV1Present

/-- The state init() establishes: igmpV1Present at its default (false,
RFC 2236 initial state), the igmpV1Job created but not scheduled, and
all counters of a fresh stack at zero. -/
def igmpInit (enabled : Bool) : IGMPState :=
  { enabled := enabled
    igmpV1Present := false
    igmpV1Job := none
    sent := ⟨0, 0, 0, 0⟩
    received := ⟨0, 0, 0, 0, 0, 0, 0⟩ }

/-- writePacket assembles an IGMP packet with the given fields and hands
it to the NIC.  `txFails` tells whether WritePacketToRemote returns an
error: then Dropped is incremented and the error returned.  On success
the switch on the type increments the matching sent counter, and panics
on an unrecognized type. -/
def writePacket (sent : IGMPSentStats) (txFails : Bool) (destAddress : Address)
    (groupAddress : Address) (igmpType : Nat) : SendResult :=
  let pkt : SentPacket := ⟨destAddress, groupAddress, igmpType⟩
  if txFails then
    .ret (some .nicWriteError) { sent with dropped := sent.dropped + 1 } (some pkt) false
  else if igmpType = IGMPv1MembershipReport then
    .ret none { sent with v1MembershipReport := sent.v1MembershipReport + 1 } (some pkt) true
  else if igmpType = IGMPv2MembershipReport then
    .ret none { sent with v2MembershipReport := sent.v2MembershipReport + 1 } (some pkt) true
  else if igmpType = IGMPLeaveGroup then
    .ret none { sent with leaveGroup := sent.leaveGroup + 1 } (some pkt) true
  else
    .panicked pkt

/-- SendReport: type is V2MembershipReport, downgraded to
V1MembershipReport when v1Present; destination is the group itself. -/
def SendReport (igmp : IGMPState) (txFails : Bool) (groupAddress : Address) : SendResult :=
  let igmpType := if igmp.v1Present then IGMPv1MembershipReport else IGMPv2MembershipReport
  writePacket igmp.sent txFails groupAddress groupAddress igmpType

/-- SendLeave: when the querier runs IGMPv1 the leave is skipped
(RFC 2236 Section 6) and nil returned; otherwise a LeaveGroup message is
written to the all-routers group. -/
def SendLeave (igmp : IGMPState) (txFails : Bool) (groupAddress : Address) : SendResult :=
  if igmp.v1Present then
    .ret none igmp.sent none false
  else
    writePacket igmp.sent txFails IPv4AllRoutersGroup groupAddress IGMPLeaveGroup

/-- A call the adapter makes into the generic multicast engine:
HandleQuery with a group and a max response time, or HandleReport with a
group. -/
inductive Dispatch where
  | query (groupAddress : Address) (maxRespTime : Nat)
  | report (groupAddress : Address)
deriving DecidableEq

/-- handleMembershipQuery: when the max response time is zero and IGMP
is enabled, the igmpV1Job is cancelled and rescheduled for
v1RouterPresentTimeout, igmpV1Present is set, and the max response time
forwarded to HandleQuery becomes v1MaxRespTime; otherwise the query is
forwarded unchanged. -/
def handleMembershipQuery (igmp : IGMPState) (groupAddress : Address)
    (maxRespTime : Nat) : IGMPState × Dispatch :=
  if maxRespTime = 0 ∧ igmp.enabled = true then
    ({ igmp with igmpV1Job := some v1RouterPresentTimeout, igmpV1Present := true },
      Dispatch.query groupAddress v1MaxRespTime)
  else
    (igmp, Dispatch.query groupAddress maxRespTime)

/-- Ones-complement 16-bit addition with end-around carry, on values
below 2^16. -/
def ocAdd (a b : Nat) : Nat :=
  if a + b < 65536 then a + b else a + b - 65535

/-- Modelled from the spec: the header package's checksum routine
(ChecksumVV with initial value 0) computes the ones-complement sum of
the buffer taken as big-endian 16-bit words, an odd trailing byte padded
with a zero low byte. -/
def internetChecksumSum : List Nat → Nat
  | [] => 0
  | [b] => b % 256 * 256
  | b1 :: b2 :: rest => ocAdd (b1 % 256 * 256 + b2 % 256) (internetChecksumSum rest)

/-- The 16-bit ones complement (Go ^x on a uint16 value). -/
def compl16 (x : Nat) : Nat := 65535 - x

/-- Modelled from the spec: byte 0 of the 8-byte IGMP message is the
type (header package accessor Type). -/
def igmpMessageType (b : List Nat) : Nat := b.getD 0 0

/-- Modelled from the spec: byte 1 is the max-response-time field in
deciseconds (accessor MaxRespTime converts it to a duration). -/
def igmpMaxRespTimeField (b : List Nat) : Nat := b.getD 1 0

/-- Modelled from the spec: bytes 2-3 are the big-endian 16-bit checksum
(accessor Checksum). -/
def igmpChecksumField (b : List Nat) : Nat := b.getD 2 0 * 256 + b.getD 3 0

/-- Modelled from the spec: bytes 4-7 are the big-endian group address
(accessor GroupAddress). -/
def igmpGroupAddressField (b : List Nat) : Nat :=
  ((b.getD 4 0 * 256 + b.getD 5 0) * 256 + b.getD 6 0) * 256 + b.getD 7 0

/-- SetChecksum(0) zeroes bytes 2-3 of the buffer; the header view
aliases the packet data, so the zeroing is visible to the checksum
computed over the whole data. -/
def setChecksumZero (b : List Nat) : List Nat := (b.set 2 0).set 3 0

/-- handleIGMP: pull up 8 bytes (too short counts as Invalid); read the
stored checksum, zero the field, take the ones complement of the
checksum sum over the whole packet data (the field is then restored,
which the functional reading makes implicit), and on mismatch count a
ChecksumError and drop; otherwise dispatch on the type, counting the
matching received statistic, with LeaveGroup ignored and unknown types
counted as Unrecognized. -/
def handleIGMP (igmp : IGMPState) (packet : List Nat) : IGMPState × Option Dispatch :=
  if packet.length < IGMPMinimumSize then
    ({ igmp with received := { igmp.received with invalid := igmp.received.invalid + 1 } }, none)
  else
    let h := packet.take IGMPMinimumSize
    let wantChecksum := igmpChecksumField h
    let gotChecksum := compl16 (internetChecksumSum (setChecksumZero packet))
    if gotChecksum ≠ wantChecksum then
      ({ igmp with received :=
          { igmp.received with checksumErrors := igmp.received.checksumErrors + 1 } }, none)
    else if igmpMessageType h = IGMPMembershipQuery then
      let igmp1 := { igmp with received :=
        { igmp.received with membershipQuery := igmp.received.membershipQuery + 1 } }
      if h.length < IGMPQueryMinimumSize then
        ({ igmp1 with received :=
            { igmp1.received with invalid := igmp1.received.invalid + 1 } }, none)
      else
        let r := handleMembershipQuery igmp1 (igmpGroupAddressField h)
          (decisecondToDuration (igmpMaxRespTimeField h))
        (r.1, some r.2)
    else if igmpMessageType h = IGMPv1MembershipReport then
      let igmp1 := { igmp with received :=
        { igmp.received with v1MembershipReport := igmp.received.v1MembershipReport + 1 } }
      if h.length < IGMPReportMinimumSize then
        ({ igmp1 with received :=
            { igmp1.received with invalid := igmp1.received.invalid + 1 } }, none)
      else
        (igmp1, some (Dispatch.report (igmpGroupAddressField h)))
    else if igmpMessageType h = IGMPv2MembershipReport then
      let igmp1 := { igmp with received :=
        { igmp.received with v2MembershipReport := igmp.received.v2MembershipReport + 1 } }
      if h.length < IGMPReportMinimumSize then
        ({ igmp1 with received :=
            { igmp1.received with invalid := igmp1.received.invalid + 1 } }, none)
      else
        (igmp1, some (Dispatch.report (igmpGroupAddressField h)))
    else if igmpMessageType h = IGMPLeaveGroup then
      ({ igmp with received :=
          { igmp.received with leaveGroup := igmp.received.leaveGroup + 1 } }, none)
    else
      ({ igmp with received :=
          { igmp.received with unrecognized := igmp.received.unrecognized + 1 } }, none)

/-- Modelled from the spec: the generic multicast engine (its source is
not in this tree) keeps a per-group joinCount of outstanding local
joins; a group is joined locally when its joinCount is positive. -/
structure EngineState where
  joinCount : Address → Nat

/-- Modelled from the spec: the engine's LeaveGroup decrements the
joinCount and returns false only if the group was not joined. -/
def EngineState.LeaveGroup (s : EngineState) (g : Address) : Bool × EngineState :=
  if s.joinCount g = 0 then
    (false, s)
  else
    (true, ⟨fun a => if a = g then s.joinCount a - 1 else s.joinCount a⟩)

/-- leaveGroup forwards to the engine's LeaveGroup and turns a false
return into ErrBadLocalAddress. -/
def leaveGroup (engine : EngineState) (g : Address) : Option TcpipError × EngineState :=
  let r := engine.LeaveGroup g
  if r.1 then (none, r.2) else (some .badLocalAddress, r.2)

/-- The operations of the per-interface IGMP state that can run between
two instants, each one atomic under the adapter's lock: an incoming
membership query (already past parsing and checksum), an incoming
membership report, and the firing of the igmpV1Job (which only happens
while the job is scheduled, and whose callback clears igmpV1Present). -/
inductive Event where
  | membershipQuery (groupAddress : Address) (maxRespTime : Nat)
  | membershipReport (groupAddress : Address)
  | v1JobFire
deriving DecidableEq

/-- One atomic operation on the IGMP state. -/
def step (s : IGMPState) : Event → IGMPState
  | .membershipQuery g m => (handleMembershipQuery s g m).1
  | .membershipReport _ => s
  | .v1JobFire =>
      if s.igmpV1Job.isSome then { s with igmpV1Present := false, igmpV1Job := none } else s

/-- The v1 invariant: the igmpV1Job is armed exactly when igmpV1Present
is set. -/
def v1Invariant (s : IGMPState) : Prop := s.igmpV1Job.isSome = s.igmpV1Present

/-- A state in which an IGMPv1 querier has just been heard on an enabled
interface: the flag is set and the v1 job is scheduled. -/
def igmpV1Heard : IGMPState :=
  { igmpInit true with igmpV1Present := true, igmpV1Job := some v1RouterPresentTimeout }

/-- Modelled from the spec: the IPv4 options the serializer recognizes
(header package types IPv4SerializableNOPOption,
IPv4SerializableListEndOption, IPv4SerializableRouterAlertOption). -/
inductive IPv4SerializableOption where
  | nop
  | listEnd
  | routerAlert
deriving DecidableEq

/-- Modelled from the spec: the bytes each option serializes to — NOP is
the single byte 0x01, End-of-list the single byte 0x00, Router Alert the
four bytes 0x94 0x04 0x00 0x00. -/
def IPv4SerializableOption.serializedBytes : IPv4SerializableOption → List Nat
  | .nop => [1]
  | .listEnd => [0]
  | .routerAlert => [148, 4, 0, 0]

/-- Modelled from the spec: each option's own length in bytes. -/
def IPv4SerializableOption.optionLength : IPv4SerializableOption → Nat
  | .nop => 1
  | .listEnd => 1
  | .routerAlert => 4

/-- An IPv4OptionsSerializer is a list of serializable options. -/
abbrev IPv4OptionsSerializer := List IPv4SerializableOption

/-- Modelled from the spec: Length returns the serialized length padded
up to a 4-byte boundary. -/
def IPv4OptionsSerializer.Length (s : IPv4OptionsSerializer) : Nat :=
  ((s.map IPv4SerializableOption.optionLength).sum + 3) / 4 * 4

/-- Modelled from the spec: Serialize writes the options in input order,
pads to the 4-byte boundary with zero bytes, and returns the number of
bytes written.  We return the written bytes alongside that number. -/
def IPv4OptionsSerializer.Serialize (s : IPv4OptionsSerializer) : List Nat × Nat :=
  let content := (s.map IPv4SerializableOption.serializedBytes).flatten
  let total := IPv4OptionsSerializer.Length s
  (content ++ List.replicate (total - content.length) 0, total)

/-!
Theorems settling the claims, with supporting lemmas.
-/

/-- Claim C1: for every incoming membership query whose max-response-time
field is zero, when the per-interface enabled flag is true
handleMembershipQuery sets igmpV1Present, leaves the v1 job rescheduled
for v1RouterPresentTimeout (400 seconds), and forwards the query to the
engine with an effective max response time of v1MaxRespTime (10 seconds);
when the enabled flag is false, igmpV1Present is left untouched. -/
theorem c1_v1_query_interception (igmp : IGMPState) (g : Address) :
    (igmp.enabled = true →
      handleMembershipQuery igmp g 0 =
        ({ igmp with igmpV1Present := true, igmpV1Job := some v1RouterPresentTimeout },
          Dispatch.query g v1MaxRespTime)) ∧
    (igmp.enabled = false →
      (handleMembershipQuery igmp g 0).1.igmpV1Present = igmp.igmpV1Present) ∧
    v1RouterPresentTimeout = 400 * second ∧ v1MaxRespTime = 10 * second := by
  refine ⟨fun h => ?_, fun h => ?_, rfl, rfl⟩
  · simp [handleMembershipQuery, h]
  · simp [handleMembershipQuery, h]

/-- Witness for C1 at a concrete enabled state. -/
theorem c1_v1_query_interception_witness :
    (igmpInit true).enabled = true ∧
    handleMembershipQuery (igmpInit true) IPv4AllSystems 0 =
      ({ igmpInit true with igmpV1Present := true, igmpV1Job := some v1RouterPresentTimeout },
        Dispatch.query IPv4AllSystems v1MaxRespTime) :=
  ⟨rfl, (c1_v1_query_interception (igmpInit true) IPv4AllSystems).1 rfl⟩

/-- Claim C2: for every group address, when igmpV1Present holds,
SendLeave transmits nothing, leaves every sent counter (in particular
LeaveGroup) unchanged, and returns success. -/
theorem c2_leave_suppressed_when_v1Present (igmp : IGMPState) (txFails : Bool)
    (g : Address) (h : igmp.v1Present = true) :
    SendLeave igmp txFails g = SendResult.ret none igmp.sent none false := by
  simp [SendLeave, h]

/-- Witness for C2 at a concrete state with the v1 flag set. -/
theorem c2_leave_suppressed_when_v1Present_witness :
    igmpV1Heard.v1Present = true ∧
    SendLeave igmpV1Heard false IPv4AllSystems =
      SendResult.ret none igmpV1Heard.sent none false :=
  ⟨rfl, c2_leave_suppressed_when_v1Present igmpV1Heard false IPv4AllSystems rfl⟩

/-- Claim C3: for every group address, SendReport builds a message of
type V2MembershipReport when igmpV1Present is false and of type
V1MembershipReport when it is true, and in both cases the packet is
destined to the group being reported. -/
theorem c3_report_type_and_destination (igmp : IGMPState) (txFails : Bool) (g : Address) :
    (SendReport igmp txFails g).builtPacket =
      some ⟨g, g, if igmp.v1Present then IGMPv1MembershipReport else IGMPv2MembershipReport⟩ := by
  cases h : igmp.v1Present <;> cases txFails <;>
    simp [SendReport, writePacket, SendResult.builtPacket, h,
      IGMPv1MembershipReport, IGMPv2MembershipReport, IGMPLeaveGroup]

/-- Counterexample to claim C4 as stated: the code does not compute the
checksum over the 8-byte message but over the entire packet data.  On
this 10-byte packet the checksum verification described by the claim
(zero the field, ones-complement sum of the 8-byte message, compare)
succeeds, yet handleIGMP counts a ChecksumError and drops the packet
without dispatching to the engine. -/
theorem c4_checksum_counterexample :
    compl16 (internetChecksumSum (setChecksumZero
        (List.take 8 [17, 0, 238, 255, 0, 0, 0, 0, 171, 205]))) =
      igmpChecksumField (List.take 8 [17, 0, 238, 255, 0, 0, 0, 0, 171, 205]) ∧
    handleIGMP (igmpInit true) [17, 0, 238, 255, 0, 0, 0, 0, 171, 205] =
      ({ igmpInit true with received :=
          { (igmpInit true).received with checksumErrors := 1 } }, none) :=
  ⟨rfl, rfl⟩

/-- Claim C4 (amended: the ones-complement sum is computed over the
entire packet data, which coincides with the 8-byte message exactly when
the packet is 8 bytes long): for every packet of at least 8 bytes whose
stored checksum does not match the ones complement of the checksum sum
over the data with the checksum field zeroed, handleIGMP increments the
ChecksumErrors counter and drops the packet without dispatching. -/
theorem c4_checksum_mismatch_drops (igmp : IGMPState) (packet : List Nat)
    (hlen : IGMPMinimumSize ≤ packet.length)
    (hbad : compl16 (internetChecksumSum (setChecksumZero packet)) ≠
      igmpChecksumField (packet.take IGMPMinimumSize)) :
    handleIGMP igmp packet =
      ({ igmp with received :=
          { igmp.received with checksumErrors := igmp.received.checksumErrors + 1 } }, none) := by
  simp only [handleIGMP]
  rw [if_neg (Nat.not_lt.mpr hlen), if_pos hbad]

/-- Witness for the amended C4 at a concrete all-zero-checksum packet. -/
theorem c4_checksum_mismatch_drops_witness :
    IGMPMinimumSize ≤ List.length ([17, 0, 0, 0, 0, 0, 0, 0] : List Nat) ∧
    compl16 (internetChecksumSum (setChecksumZero ([17, 0, 0, 0, 0, 0, 0, 0] : List Nat))) ≠
      igmpChecksumField (List.take IGMPMinimumSize ([17, 0, 0, 0, 0, 0, 0, 0] : List Nat)) ∧
    handleIGMP (igmpInit true) [17, 0, 0, 0, 0, 0, 0, 0] =
      ({ igmpInit true with received :=
          { (igmpInit true).received with checksumErrors := 1 } }, none) :=
  ⟨by decide, by decide,
    c4_checksum_mismatch_drops (igmpInit true) [17, 0, 0, 0, 0, 0, 0, 0]
      (by decide) (by decide)⟩

/-- Claim C5: for every group address, when igmpV1Present is false and
the NIC accepts the packet, SendLeave writes a LeaveGroup message whose
destination is the all-routers group, and that address is 224.0.2.0
(numerically 3758096896). -/
theorem c5_leave_destination_all_routers (igmp : IGMPState) (g : Address)
    (h : igmp.v1Present = false) :
    SendLeave igmp false g =
      SendResult.ret none { igmp.sent with leaveGroup := igmp.sent.leaveGroup + 1 }
        (some ⟨IPv4AllRoutersGroup, g, IGMPLeaveGroup⟩) true ∧
    IPv4AllRoutersGroup = 3758096896 := by
  refine ⟨?_, rfl⟩
  simp [SendLeave, h, writePacket,
    IGMPv1MembershipReport, IGMPv2MembershipReport, IGMPLeaveGroup]

/-- Witness for C5 at the freshly initialized state. -/
theorem c5_leave_destination_all_routers_witness :
    (igmpInit true).v1Present = false ∧
    (SendLeave (igmpInit true) false IPv4AllSystems =
      SendResult.ret none
        { (igmpInit true).sent with leaveGroup := (igmpInit true).sent.leaveGroup + 1 }
        (some ⟨IPv4AllRoutersGroup, IPv4AllSystems, IGMPLeaveGroup⟩) true ∧
      IPv4AllRoutersGroup = 3758096896) :=
  ⟨rfl, c5_leave_destination_all_routers (igmpInit true) IPv4AllSystems rfl⟩

/-- Each step of the IGMP state preserves the v1 invariant: queries
either leave the flag and job alone or set both, and the job can only
fire while armed, after which it is disarmed and the flag cleared. -/
theorem step_preserves_v1Invariant (s : IGMPState) (e : Event) (h : v1Invariant s) :
    v1Invariant (step s e) := by
  cases e with
  | membershipQuery g m =>
      simp only [step, handleMembershipQuery]
      split
      · simp [v1Invariant]
      · exact h
  | membershipReport g => exact h
  | v1JobFire =>
      simp only [step]
      split
      · simp [v1Invariant]
      · exact h

/-- The v1 invariant is preserved along any sequence of operations. -/
theorem foldl_step_v1Invariant (evs : List Event) (s : IGMPState) (h : v1Invariant s) :
    v1Invariant (evs.foldl step s) := by
  induction evs generalizing s with
  | nil => exact h
  | cons e t ih => exact ih (step s e) (step_preserves_v1Invariant s e h)

/-- Claim C6: starting from the initialized state, after any sequence of
atomic operations (each a critical section), the v1 job is armed if and
only if igmpV1Present is set: queries that set the flag also schedule
the job, and the job's callback clears the flag as it fires. -/
theorem c6_v1_timer_armed_iff_flag (enabled : Bool) (evs : List Event) :
    v1Invariant (evs.foldl step (igmpInit enabled)) :=
  foldl_step_v1Invariant evs (igmpInit enabled) rfl

/-- Claim C7: for every group address, leaveGroup returns
ErrBadLocalAddress exactly when the group has no outstanding local joins
(joinCount zero), and returns success exactly when it was joined. -/
theorem c7_leaveGroup_badLocalAddress_iff_not_joined (engine : EngineState) (g : Address) :
    ((leaveGroup engine g).1 = some TcpipError.badLocalAddress ↔ engine.joinCount g = 0) ∧
    ((leaveGroup engine g).1 = none ↔ 0 < engine.joinCount g) := by
  by_cases h : engine.joinCount g = 0
  · simp [leaveGroup, EngineState.LeaveGroup, h]
  · simp [leaveGroup, EngineState.LeaveGroup, h]
    omega

/-- Claim C8: writePacket aborts the process exactly when the NIC
accepted the packet and the type is none of V1MembershipReport,
V2MembershipReport and LeaveGroup; in particular the three recognized
types never panic. -/
theorem c8_writePacket_panics_iff_unrecognized (sent : IGMPSentStats) (txFails : Bool)
    (destAddress groupAddress : Address) (igmpType : Nat) :
    (writePacket sent txFails destAddress groupAddress igmpType).isPanicked = true ↔
      txFails = false ∧ igmpType ≠ IGMPv1MembershipReport ∧
        igmpType ≠ IGMPv2MembershipReport ∧ igmpType ≠ IGMPLeaveGroup := by
  cases txFails with
  | true => simp [writePacket, SendResult.isPanicked]
  | false =>
      by_cases h1 : igmpType = IGMPv1MembershipReport
      · simp [writePacket, SendResult.isPanicked, h1]
      · by_cases h2 : igmpType = IGMPv2MembershipReport
        · simp [writePacket, SendResult.isPanicked, h1, h2,
            IGMPv1MembershipReport, IGMPv2MembershipReport]
        · by_cases h3 : igmpType = IGMPLeaveGroup
          · simp [writePacket, SendResult.isPanicked, h1, h2, h3,
              IGMPv1MembershipReport, IGMPv2MembershipReport, IGMPLeaveGroup]
          · simp [writePacket, SendResult.isPanicked, h1, h2, h3]

/-- The bytes an option serializes to are as many as its length field
claims. -/
theorem serializedBytes_length_eq (o : IPv4SerializableOption) :
    o.serializedBytes.length = o.optionLength := by
  cases o <;> rfl

/-- The concatenated content of a serializer is as long as the sum of
the option lengths. -/
theorem serializer_content_length (s : IPv4OptionsSerializer) :
    (s.map IPv4SerializableOption.serializedBytes).flatten.length =
      (s.map IPv4SerializableOption.optionLength).sum := by
  induction s with
  | nil => rfl
  | cons o t ih => simp [serializedBytes_length_eq, ih]

/-- Claim C9: for every option list, Serialize writes exactly Length
bytes and returns that number, Length is a multiple of 4, and
serializing NOP followed by RouterAlert yields the eight bytes
01 94 04 00 00 00 00 00 (0x94 = 148), zero-padded to the 4-byte
boundary. -/
theorem c9_options_serializer_contract (opts : IPv4OptionsSerializer) :
    (IPv4OptionsSerializer.Serialize opts).1.length = IPv4OptionsSerializer.Length opts ∧
    (IPv4OptionsSerializer.Serialize opts).2 = IPv4OptionsSerializer.Length opts ∧
    IPv4OptionsSerializer.Length opts % 4 = 0 ∧
    IPv4OptionsSerializer.Serialize
        [IPv4SerializableOption.nop, IPv4SerializableOption.routerAlert] =
      ([1, 148, 4, 0, 0, 0, 0, 0], 8) := by
  refine ⟨?_, rfl, ?_, rfl⟩
  · simp only [IPv4OptionsSerializer.Serialize, IPv4OptionsSerializer.Length,
      List.length_append, List.length_replicate, serializer_content_length]
    omega
  · simp only [IPv4OptionsSerializer.Length]
    omega

/-- Claim C10: for every incoming membership query with max response
time zero on a disabled interface, the query is still forwarded to the
engine with max response time zero, and the state — the v1 job
included — is untouched. -/
theorem c10_disabled_query_forwarded_unchanged (igmp : IGMPState) (g : Address)
    (h : igmp.enabled = false) :
    handleMembershipQuery igmp g 0 = (igmp, Dispatch.query g 0) := by
  simp [handleMembershipQuery, h]

/-- Witness for C10 at the freshly initialized disabled state. -/
theorem c10_disabled_query_forwarded_unchanged_witness :
    (igmpInit false).enabled = false ∧
    handleMembershipQuery (igmpInit false) IPv4AllSystems 0 =
      (igmpInit false, Dispatch.query IPv4AllSystems 0) :=
  ⟨rfl, c10_disabled_query_forwarded_unchanged (igmpInit false) IPv4AllSystems rfl⟩
